import Mathlib

/-!
Verification of the position-lifecycle core of the JimmyBSC trading bot.

The definitions below are a shallow embedding of the Rust source:
  * `src/src/app/auto_trade.rs` — the real trader (`RealTrader`, its guarded
    store operations, the sell-trigger evaluation, the sell-plan execution
    confirmation loop, the allowance worker, `manual_sell`);
  * `src/src/libs/sim.rs` — the simulation engine (`SimPosition`, `SimEngine`);
  * `src/src/app/results.rs` — the click-handler gating of manual closes.

Modelling conventions: Rust `f64` prices and sizes become `ℚ` (the code uses
only arithmetic and comparisons on them); `Instant` timestamps become `ℕ`
seconds, with the present instant threaded as a `now` argument; `HashMap` /
`HashSet` become association lists / lists with insert-replaces-and
remove-filters semantics; `&mut self` methods return the new state alongside
their Rust return value; asynchronous adapter calls (swap, balance polls,
approval submission) become explicit outcome parameters.
-/

namespace JimmyBSC

/-- Insert-or-replace into an association list (`HashMap::insert`). -/
def assocInsert {α : Type} (l : List (String × α)) (k : String) (v : α) :
    List (String × α) :=
  (k, v) :: l.filter (fun p => p.1 ≠ k)

/-- Remove a key from an association list (`HashMap::remove` drops the entry). -/
def assocRemove {α : Type} (l : List (String × α)) (k : String) :
    List (String × α) :=
  l.filter (fun p => p.1 ≠ k)

/-- Lookup in an association list (`HashMap::get`). -/
def assocLookup {α : Type} (l : List (String × α)) (k : String) : Option α :=
  (l.find? (fun p => p.1 = k)).map Prod.snd

/-- Insert into a set represented as a list (`HashSet::insert`). -/
def setInsert (s : List String) (k : String) : List String :=
  if k ∈ s then s else k :: s

/-- Remove from a set represented as a list (`HashSet::remove`). -/
def setRemove (s : List String) (k : String) : List String :=
  s.filter (fun x => x ≠ k)

theorem assocLookup_insert {α : Type} (l : List (String × α)) (k : String) (v : α) :
    assocLookup (assocInsert l k v) k = some v := by
  simp [assocLookup, assocInsert]

theorem assocLookup_remove {α : Type} (l : List (String × α)) (k : String) :
    assocLookup (assocRemove l k) k = none := by
  rw [assocLookup, assocRemove]
  rw [Option.map_eq_none', List.find?_eq_none]
  intro p hp
  simp only [List.mem_filter, ne_eq, decide_not, Bool.not_eq_eq_eq_not,
    Bool.not_true, decide_eq_false_iff_not] at hp
  simpa using hp.2

theorem mem_setInsert (s : List String) (k x : String) :
    x ∈ setInsert s k ↔ x ∈ s ∨ x = k := by
  unfold setInsert
  split
  · constructor
    · exact fun h => Or.inl h
    · rintro (h | rfl) <;> [exact h; assumption]
  · simp [List.mem_cons, or_comm, eq_comm]

theorem not_mem_setRemove (s : List String) (k : String) : k ∉ setRemove s k := by
  intro h
  simp only [setRemove, List.mem_filter, ne_eq, decide_not, Bool.not_eq_eq_eq_not,
    Bool.not_true, decide_eq_false_iff_not, not_true_eq_false, and_false] at h

theorem mem_setRemove_of_ne (s : List String) (k x : String) (h : x ≠ k) :
    x ∈ setRemove s k ↔ x ∈ s := by
  simp [setRemove, List.mem_filter, h]

/-- `DexType` from `src/src/libs/sim.rs`. -/
inductive DexType
  | V2
  | V3
  | FourMeme
deriving DecidableEq, Repr

/-- `SellTrigger` from `src/src/app/auto_trade.rs`. -/
inductive SellTrigger
  | TakeProfit (pct : ℚ)
  | StopLoss (pct : ℚ)
  | MaxHold (secs : ℕ)
  | Manual
deriving DecidableEq, Repr

/-- `RealPosition` from `src/src/app/auto_trade.rs` (addresses kept as strings). -/
structure RealPosition where
  pair_address : String
  dex_type : DexType
  token_out : String
  base_symbol : String
  entry_price : ℚ
  buy_amount_bnb : ℚ
  opened_at : ℕ
deriving DecidableEq, Repr

/-- `SellPlan` from `src/src/app/auto_trade.rs`. -/
structure SellPlan where
  pair_key : String
  dex_type : DexType
  token_out : String
  base_symbol : String
  spent_bnb : ℚ
  pnl_pct : ℚ
  trigger : SellTrigger
  percent_points : ℕ
deriving DecidableEq, Repr

/-- The parsed view of the configuration keys that `sell_decision` reads from
the `ConfigStore`: each field is the result of `config_store.get(..)` followed
by the parse the source applies (`== "true"` for the booleans, `parse` for the
numbers); `none` models an absent or unparseable entry. -/
structure ConfigStore where
  tp_enabled : Bool
  tp_pct : Option ℚ
  sl_enabled : Bool
  sl_pct : Option ℚ
  max_hold_secs : Option ℕ
  max_hold_pnl : Option Bool
deriving DecidableEq, Repr

/-- `RealTrader` from `src/src/app/auto_trade.rs`: the guarded position store. -/
structure RealTrader where
  positions : List (String × RealPosition)
  closing : List String
  do_not_rebuy : List String
deriving DecidableEq, Repr

/-- `RealTrader::has_position_or_blocked`. -/
def RealTrader.has_position_or_blocked (t : RealTrader) (k : String) : Bool :=
  (assocLookup t.positions k).isSome || k ∈ t.closing || k ∈ t.do_not_rebuy

/-- `RealTrader::record_buy`. -/
def RealTrader.record_buy (t : RealTrader) (pos : RealPosition) : RealTrader :=
  { positions := assocInsert t.positions pos.pair_address pos
    closing := setRemove t.closing pos.pair_address
    do_not_rebuy := setRemove t.do_not_rebuy pos.pair_address }

/-- `RealTrader::reserve_close`: the Rust method returns `bool` and mutates
`self`; here it returns the flag with the new state. -/
def RealTrader.reserve_close (t : RealTrader) (k : String) : Bool × RealTrader :=
  if k ∈ t.closing then (false, t)
  else if (assocLookup t.positions k).isNone then (false, t)
  else (true, { t with closing := setInsert t.closing k })

/-- `RealTrader::abort_close`. -/
def RealTrader.abort_close (t : RealTrader) (k : String) : RealTrader :=
  { t with closing := setRemove t.closing k }

/-- `RealTrader::finish_sell`. -/
def RealTrader.finish_sell (t : RealTrader) (k : String) : RealTrader :=
  match assocLookup t.positions k with
  | some pos =>
      { positions := assocRemove t.positions k
        closing := setRemove t.closing k
        do_not_rebuy := setInsert t.do_not_rebuy pos.pair_address }
  | none => { t with closing := setRemove t.closing k }

/-- `RealTrader::block_rebuy`. -/
def RealTrader.block_rebuy (t : RealTrader) (k : String) : RealTrader :=
  { t with do_not_rebuy := setInsert t.do_not_rebuy k }

/-- The trigger chain of `RealTrader::sell_decision` (auto_trade.rs lines
571-623), factored over the already-computed `pnl_pct` and the elapsed holding
time in seconds. -/
def computeTrigger (cfg : ConfigStore) (pnl_pct : ℚ) (elapsed : ℕ) :
    Option SellTrigger :=
  let tp_pct : Option ℚ := if cfg.tp_enabled then cfg.tp_pct else none
  let sl_pct : Option ℚ := if cfg.sl_enabled then cfg.sl_pct else none
  let trig0 : Option SellTrigger :=
    match tp_pct with
    | some tp => if pnl_pct ≥ tp then some (SellTrigger.TakeProfit tp) else none
    | none => none
  let trig1 : Option SellTrigger :=
    match trig0 with
    | some tr => some tr
    | none =>
        match sl_pct with
        | some sl => if pnl_pct ≤ -sl then some (SellTrigger.StopLoss sl) else none
        | none => none
  match trig1 with
  | some tr => some tr
  | none =>
      let mh := cfg.max_hold_secs.getD 0
      if mh > 0 ∧ elapsed ≥ mh then
        let gate := (cfg.max_hold_pnl.getD true)
        if gate = false ∨ pnl_pct ≤ 50 then some (SellTrigger.MaxHold mh) else none
      else none

/-- `RealTrader::sell_decision`: evaluates the close triggers for `k` at
`current_price` and, when one fires, reserves the close in the same step. -/
def RealTrader.sell_decision (t : RealTrader) (k : String) (current_price : ℚ)
    (cfg : ConfigStore) (now : ℕ) : Option SellPlan × RealTrader :=
  if k ∈ t.closing then (none, t)
  else
    match assocLookup t.positions k with
    | none => (none, t)
    | some pos =>
        if pos.entry_price ≤ 0 then (none, t)
        else
          let pnl_pct := (current_price / pos.entry_price - 1) * 100
          match computeTrigger cfg pnl_pct (now - pos.opened_at) with
          | none => (none, t)
          | some tr =>
              (some { pair_key := k
                      dex_type := pos.dex_type
                      token_out := pos.token_out
                      base_symbol := pos.base_symbol
                      spent_bnb := pos.buy_amount_bnb
                      pnl_pct := pnl_pct
                      trigger := tr
                      percent_points := 100 },
               { t with closing := setInsert t.closing k })

/-- `PositionStatus` from `src/src/libs/sim.rs`. -/
inductive PositionStatus
  | Open
  | ClosedTP
  | ClosedSL
  | ClosedManual
deriving DecidableEq, Repr

/-- `SimPosition` from `src/src/libs/sim.rs`. -/
structure SimPosition where
  pair_address : String
  dex_type : DexType
  base_token : String
  quote_token : String
  entry_price : ℚ
  current_price : ℚ
  buy_amount_wbnb : ℚ
  remaining_amount_wbnb : ℚ
  opened_at : ℕ
  closed_at : Option ℕ
  status : PositionStatus
  liquidity_usd : Option ℚ
  out_of_liq : Bool
  needs_liq_ack : Bool
  tp_pct : Option ℚ
  sl_pct : Option ℚ
  pnl_pct : ℚ
  pnl_wbnb : ℚ
  realized_pnl_wbnb : ℚ
  frozen : Bool
deriving DecidableEq, Repr

/-- `SimPosition::new` (`Instant::now()` becomes the `now` argument). -/
def SimPosition.new (pair_address : String) (dex_type : DexType)
    (base_token quote_token : String) (entry_price buy_amount_wbnb : ℚ)
    (tp_pct sl_pct : Option ℚ) (now : ℕ) : SimPosition :=
  { pair_address := pair_address
    dex_type := dex_type
    base_token := base_token
    quote_token := quote_token
    entry_price := entry_price
    current_price := entry_price
    buy_amount_wbnb := buy_amount_wbnb
    remaining_amount_wbnb := buy_amount_wbnb
    opened_at := now
    closed_at := none
    status := PositionStatus.Open
    liquidity_usd := none
    out_of_liq := false
    needs_liq_ack := false
    tp_pct := tp_pct
    sl_pct := sl_pct
    pnl_pct := 0
    pnl_wbnb := 0
    realized_pnl_wbnb := 0
    frozen := false }

/-- `SimPosition::update_liquidity`. -/
def SimPosition.update_liquidity (p : SimPosition) (liquidity : Option ℚ) :
    SimPosition :=
  let p := { p with liquidity_usd := liquidity }
  match liquidity with
  | none => p
  | some liq =>
      if liq < 5 then
        { p with needs_liq_ack := if !p.out_of_liq then true else p.needs_liq_ack
                 out_of_liq := true }
      else if p.out_of_liq && p.needs_liq_ack then p
      else { p with out_of_liq := false, needs_liq_ack := false }

/-- `SimPosition::close`. -/
def SimPosition.close (p : SimPosition) (status : PositionStatus) (now : ℕ) :
    SimPosition :=
  { p with status := status, closed_at := some now }

/-- `SimPosition::update_price`: returns the updated position and whether an
automatic TP/SL close fired. -/
def SimPosition.update_price (p : SimPosition) (new_price : ℚ) (now : ℕ) :
    SimPosition × Bool :=
  let p := { p with current_price := new_price }
  if p.entry_price ≤ 0 then (p, false)
  else
    let pnl_pct := (new_price / p.entry_price - 1) * 100
    let p := { p with pnl_pct := pnl_pct
                      pnl_wbnb := p.remaining_amount_wbnb * (pnl_pct / 100) }
    if p.frozen then (p, false)
    else if p.remaining_amount_wbnb > 0 then
      let tpFire : Bool :=
        match p.tp_pct with
        | some tp => decide (p.pnl_pct ≥ tp)
        | none => false
      if tpFire then (p.close PositionStatus.ClosedTP now, true)
      else
        let slFire : Bool :=
          match p.sl_pct with
          | some sl => decide (p.pnl_pct ≤ -sl)
          | none => false
        if slFire then (p.close PositionStatus.ClosedSL now, true)
        else (p, false)
    else (p, false)

/-- `SimPosition::partial_sell_fraction`: returns the updated position and the
realized PnL of the partial action. -/
def SimPosition.partial_sell_fraction (p : SimPosition) (fraction : ℚ) :
    SimPosition × ℚ :=
  if ¬(fraction > 0 ∧ fraction ≤ 1) ∨ p.remaining_amount_wbnb ≤ 0 then (p, 0)
  else
    let sell_amount := p.remaining_amount_wbnb * fraction
    let realized := sell_amount * (p.pnl_pct / 100)
    let rem0 := p.remaining_amount_wbnb - sell_amount
    let rem := if |rem0| < 1 / 10 ^ 12 then 0 else rem0
    ({ p with remaining_amount_wbnb := rem
              realized_pnl_wbnb := p.realized_pnl_wbnb + realized
              pnl_wbnb := rem * (p.pnl_pct / 100) },
     realized)

/-- `SimPosition::duration_secs`. -/
def SimPosition.duration_secs (p : SimPosition) (now : ℕ) : ℕ :=
  p.closed_at.getD now - p.opened_at

/-- One entry of `SimEngine::pending_buys` (the Rust tuple). -/
structure PendingBuy where
  dex_type : DexType
  base_token : String
  quote_token : String
  buy_amount : ℚ
  tp_pct : Option ℚ
  sl_pct : Option ℚ
deriving DecidableEq, Repr

/-- `SimEngine` from `src/src/libs/sim.rs`. -/
structure SimEngine where
  positions : List (String × SimPosition)
  closed_positions : List SimPosition
  max_positions : ℕ
  pending_buys : List (String × PendingBuy)
  do_not_rebuy : List String
  max_hold_secs : ℕ
  max_hold_pnl_enabled : Bool
deriving DecidableEq, Repr

/-- `SimEngine::take_position`. -/
def SimEngine.take_position (se : SimEngine) (k : String) (now : ℕ) :
    Option SimPosition × SimEngine :=
  match assocLookup se.positions k with
  | none => (none, se)
  | some pos =>
      let pos := { pos with pnl_wbnb := pos.realized_pnl_wbnb + pos.pnl_wbnb }
      let pos := pos.close PositionStatus.ClosedManual now
      (some pos,
       { se with positions := assocRemove se.positions k
                 do_not_rebuy := setInsert se.do_not_rebuy pos.pair_address
                 closed_positions := se.closed_positions ++ [pos] })

/-- `SimEngine::partial_take`. -/
def SimEngine.partial_take (se : SimEngine) (k : String) (fraction : ℚ) :
    Option (ℚ × Bool) × SimEngine :=
  match assocLookup se.positions k with
  | none => (none, se)
  | some pos =>
      if pos.frozen then (none, se)
      else
        let (pos', realized) := pos.partial_sell_fraction fraction
        let closed_now : Bool := decide (pos'.remaining_amount_wbnb = 0)
        (some (realized, closed_now),
         { se with positions := assocInsert se.positions k pos' })

/-- `SimEngine::submit_buy`. -/
def SimEngine.submit_buy (se : SimEngine) (pair_address : String)
    (dex_type : DexType) (base_token quote_token : String) (buy_amount : ℚ)
    (tp_pct sl_pct : Option ℚ) : Bool × SimEngine :=
  if (assocLookup se.positions pair_address).isSome
      || (assocLookup se.pending_buys pair_address).isSome then (false, se)
  else if pair_address ∈ se.do_not_rebuy then (false, se)
  else if se.positions.length + se.pending_buys.length ≥ se.max_positions then
    (false, se)
  else
    let pb : PendingBuy :=
      { dex_type := dex_type
        base_token := base_token
        quote_token := quote_token
        buy_amount := buy_amount
        tp_pct := tp_pct
        sl_pct := sl_pct }
    (true, { se with pending_buys := assocInsert se.pending_buys pair_address pb })

/-- `SimEngine::update_or_execute`: executes a pending buy at this tick's
price, else updates the position, applies TP/SL (when `allow_close`), then the
max-hold auto-take. -/
def SimEngine.update_or_execute (se : SimEngine) (k : String) (new_price : ℚ)
    (liquidity : Option ℚ) (allow_close : Bool) (now : ℕ) :
    Option String × SimEngine :=
  match assocLookup se.pending_buys k with
  | some pb =>
      let position := SimPosition.new k pb.dex_type pb.base_token pb.quote_token
        new_price pb.buy_amount pb.tp_pct pb.sl_pct now
      let position := position.update_liquidity liquidity
      (some "EXECUTED buy",
       { se with pending_buys := assocRemove se.pending_buys k
                 positions := assocInsert se.positions k position })
  | none =>
      let se :=
        match assocLookup se.positions k with
        | none => se
        | some pos =>
            let pos := pos.update_liquidity liquidity
            let (pos', closed) := pos.update_price new_price now
            if closed && allow_close then
              { se with positions := assocRemove se.positions k
                        do_not_rebuy := setInsert se.do_not_rebuy pos'.pair_address
                        closed_positions := se.closed_positions ++ [pos'] }
            else { se with positions := assocInsert se.positions k pos' }
      if se.max_hold_secs > 0 && allow_close then
        match assocLookup se.positions k with
        | some pos =>
            let should_close : Bool :=
              if !pos.frozen && pos.duration_secs now ≥ se.max_hold_secs
                  && pos.remaining_amount_wbnb > 0 then
                if se.max_hold_pnl_enabled then decide (pos.pnl_pct ≤ 50) else true
              else false
            if should_close then
              let pos := pos.close PositionStatus.ClosedManual now
              (some "MAX HOLD TAKE",
               { se with positions := assocRemove se.positions k
                         do_not_rebuy := setInsert se.do_not_rebuy pos.pair_address
                         closed_positions := se.closed_positions ++ [pos] })
            else (none, se)
        | none => (none, se)
      else (none, se)

/-- `SimEngine::position_needs_liq_ack`. -/
def SimEngine.position_needs_liq_ack (se : SimEngine) (k : String) : Bool :=
  ((assocLookup se.positions k).map (fun p => p.needs_liq_ack)).getD false

/-- `pair_key_str` from `src/src/app/auto_trade.rs`. -/
def pair_key_str (s : String) : String :=
  s.trim.toLower

/-- `record_buy_failure` from `src/src/app/auto_trade.rs`: bumps the
`BUY_FAILS` counter (the `fails` map) for the pair and permanently blocks the
pair once the counter reaches 3.  Returns the trader, the counter map and the
new count. -/
def record_buy_failure (t : RealTrader) (fails : List (String × ℕ))
    (k : String) : RealTrader × List (String × ℕ) × ℕ :=
  let cnt := (assocLookup fails k).getD 0 + 1
  let fails' := assocInsert fails k cnt
  if cnt ≥ 3 then (t.block_rebuy k, fails', cnt) else (t, fails', cnt)

/-- `AllowanceMarket` from `src/src/app/auto_trade.rs`. -/
inductive AllowanceMarket
  | V2
  | V3
  | FourMeme
deriving DecidableEq, Repr

/-- `AllowanceKey` from `src/src/app/auto_trade.rs`. -/
structure AllowanceKey where
  token : String
  market : AllowanceMarket
deriving DecidableEq, Repr

/-- An `AllowanceJob` as the worker sees it: its key together with the value
the boxed approval future returns when awaited (true when the approval
succeeded within its retry budget). -/
structure AllowanceJob where
  key : AllowanceKey
  succeeds : Bool
deriving DecidableEq, Repr

/-- One iteration of the `AllowanceWorker::new` consumer loop: a job whose key
is already approved is dropped; otherwise its future runs and the key is
added to the approved set exactly when it succeeds.  The boolean reports
whether the job's future was executed. -/
def workerStep (approved : List AllowanceKey) (job : AllowanceJob) :
    List AllowanceKey × Bool :=
  if job.key ∈ approved then (approved, false)
  else if job.succeeds then (job.key :: approved, true)
  else (approved, true)

/-- The whole consumer loop over a queue of jobs. -/
def workerRun (approved : List AllowanceKey) (jobs : List AllowanceJob) :
    List AllowanceKey :=
  jobs.foldl (fun acc job => (workerStep acc job).1) approved

/-- The retry loop of `send_allowance_with_retry`, from attempt index `i` with
`rem` attempts left: `outcome j` tells whether the `j`-th `send_allowance`
call succeeds.  Returns the result, the number of attempts made and the list
of backoff sleeps (in ms) performed after failures. -/
def retryFrom (outcome : ℕ → Bool) : ℕ → ℕ → Except String Unit × ℕ × List ℕ
  | _, 0 => (Except.error "allowance failed", 0, [])
  | i, rem + 1 =>
      if outcome i then (Except.ok (), 1, [])
      else
        let r := retryFrom outcome (i + 1) rem
        (r.1, r.2.1 + 1, 300 * (i + 1) :: r.2.2)

/-- `send_allowance_with_retry` with `attempts` attempts. -/
def send_allowance_with_retry (outcome : ℕ → Bool) (attempts : ℕ) :
    Except String Unit × ℕ × List ℕ :=
  retryFrom outcome 0 attempts

/-- `make_allowance_job`: the job's future runs `send_allowance_with_retry`
with 3 attempts and reports success as a boolean. -/
def make_allowance_job (key : AllowanceKey) (outcome : ℕ → Bool) : AllowanceJob :=
  { key := key
    succeeds := (send_allowance_with_retry outcome 3).1.isOk }

/-- The `wait_for_balance_drop` polling loop from attempt `i` with `rem`
polls left: `poll j` is the balance the `j`-th poll observes. -/
def waitDropFrom (bal_before : ℕ) (poll : ℕ → ℕ) : ℕ → ℕ → Option ℕ
  | _, 0 => none
  | i, rem + 1 =>
      if poll i < bal_before then some (poll i)
      else waitDropFrom bal_before poll (i + 1) rem

/-- `wait_for_balance_drop`. -/
def wait_for_balance_drop (bal_before : ℕ) (retries : ℕ) (poll : ℕ → ℕ) :
    Option ℕ :=
  waitDropFrom bal_before poll 0 retries

/-- The balance-confirmation skeleton of `execute_sell_plan` (identical in its
V2, V3 and FourMeme arms, auto_trade.rs lines 660-723 etc.): the pre-trade
balance gates, the sell amount from `percent_points`, and — with the swap
transaction already mined — the post-trade poll `poll 0` followed by up to
`retries` further polls; if the balance never drops the call fails with the
balance-mismatch error. -/
def execute_sell_plan_confirm (bal_before : ℕ) (percent_points : ℕ)
    (retries : ℕ) (poll : ℕ → ℕ) : Except String Unit :=
  if bal_before = 0 then Except.ok ()
  else
    let percent_bps := min percent_points 100 * 100
    let amount_in := bal_before * percent_bps / 10000
    if amount_in = 0 then Except.ok ()
    else
      let bal_after := poll 0
      let final_after :=
        if bal_after < bal_before then some bal_after
        else wait_for_balance_drop bal_before retries (fun i => poll (i + 1))
      match final_after with
      | some _ => Except.ok ()
      | none => Except.error "sell tx mined but token balance did not decrease"

/-- How `auto_trade_real` (and `manual_sell` at 100%) settles the reservation
after `execute_sell_plan` returns: commit with `finish_sell` on success, clear
the reservation with `abort_close` on any error (both error branches of the
source do the same). -/
def settle_sell_result (t : RealTrader) (k : String) :
    Except String Unit → RealTrader
  | Except.ok _ => t.finish_sell k
  | Except.error _ => t.abort_close k

/-- Which guarded store mutators `manual_sell` invokes, for the frame claim. -/
inductive StoreOp
  | reserveCloseOp
  | finishSellOp
  | abortCloseOp
deriving DecidableEq, Repr

/-- The full outcome of `manual_sell`. -/
structure ManualSellResult where
  trader : RealTrader
  sim : SimEngine
  sold_pairs : List String
  ret : Except String Bool
  ops : List StoreOp
deriving Repr

/-- `manual_sell` from `src/src/app/auto_trade.rs`: `execRes` is the outcome
of the external `execute_sell_plan` call; `ops` traces the store mutators
invoked on the real trader. -/
def manual_sell (t : RealTrader) (se : SimEngine) (sold : List String)
    (pair_address : String) (percent_points : ℕ) (execRes : Except String Unit)
    (now : ℕ) : ManualSellResult :=
  let k := pair_key_str pair_address
  let pct := min (max percent_points 1) 100
  if (assocLookup t.positions k).isNone then
    { trader := t, sim := se, sold_pairs := sold, ret := Except.ok false, ops := [] }
  else if pct ≥ 100 then
    let (ok, t1) := t.reserve_close k
    if !ok then
      { trader := t1, sim := se, sold_pairs := sold, ret := Except.ok false
        ops := [StoreOp.reserveCloseOp] }
    else
      match execRes with
      | Except.ok _ =>
          let t2 := t1.finish_sell k
          let (taken, se2) := se.take_position k now
          let sold2 :=
            match taken with
            | some pos => setInsert sold pos.pair_address
            | none => sold
          { trader := t2, sim := se2, sold_pairs := sold2, ret := Except.ok true
            ops := [StoreOp.reserveCloseOp, StoreOp.finishSellOp] }
      | Except.error e =>
          let t2 := t1.abort_close k
          { trader := t2, sim := se, sold_pairs := sold, ret := Except.error e
            ops := [StoreOp.reserveCloseOp, StoreOp.abortCloseOp] }
  else
    match execRes with
    | Except.ok _ =>
        let (_, se2) := se.partial_take k ((pct : ℚ) / 100)
        { trader := t, sim := se2, sold_pairs := sold, ret := Except.ok true
          ops := [] }
    | Except.error e =>
        { trader := t, sim := se, sold_pairs := sold, ret := Except.error e
          ops := [] }

/-- The per-position Take button of `handle_results_click`
(`src/src/app/results.rs` lines 508-523): blocked while the position has an
unacknowledged low-liquidity alert. -/
def resultsClickTake (se : SimEngine) (k : String) (now : ℕ) :
    Option SimPosition × SimEngine :=
  if se.position_needs_liq_ack k then (none, se)
  else se.take_position k now

/-- The partial-sell buttons of `handle_results_click`
(`src/src/app/results.rs` lines 469-491): blocked while the position has an
unacknowledged low-liquidity alert. -/
def resultsClickPartial (se : SimEngine) (k : String) (fraction : ℚ) :
    Option (ℚ × Bool) × SimEngine :=
  if se.position_needs_liq_ack k then (none, se)
  else se.partial_take k fraction

theorem reserve_close_true_iff (t : RealTrader) (k : String) :
    (t.reserve_close k).1 = true ↔
      ((assocLookup t.positions k).isSome ∧ k ∉ t.closing) := by
  unfold RealTrader.reserve_close
  by_cases hc : k ∈ t.closing
  · simp [hc]
  · cases hlk : assocLookup t.positions k with
    | none => simp [hc, hlk]
    | some pos => simp [hc, hlk]

theorem reserve_close_true_closing (t : RealTrader) (k : String)
    (h : (t.reserve_close k).1 = true) :
    (t.reserve_close k).2 = { t with closing := setInsert t.closing k } := by
  unfold RealTrader.reserve_close at *
  by_cases hc : k ∈ t.closing
  · simp [hc] at h
  · cases hlk : assocLookup t.positions k with
    | none => simp [hc, hlk] at h
    | some pos => simp [hc, hlk]

theorem reserve_close_false_of_closing (t : RealTrader) (k : String)
    (hc : k ∈ t.closing) : (t.reserve_close k).1 = false := by
  simp [RealTrader.reserve_close, hc]

theorem sell_decision_of_closing (t : RealTrader) (k : String) (price : ℚ)
    (cfg : ConfigStore) (now : ℕ) (hc : k ∈ t.closing) :
    t.sell_decision k price cfg now = (none, t) := by
  simp [RealTrader.sell_decision, hc]

theorem sell_decision_snd_of_some (t : RealTrader) (k : String) (price : ℚ)
    (cfg : ConfigStore) (now : ℕ) (plan : SellPlan) (t' : RealTrader)
    (h : t.sell_decision k price cfg now = (some plan, t')) :
    t' = { t with closing := setInsert t.closing k } := by
  unfold RealTrader.sell_decision at h
  by_cases hc : k ∈ t.closing
  · simp [hc] at h
  · cases hlk : assocLookup t.positions k with
    | none => simp [hc, hlk] at h
    | some pos =>
        by_cases he : pos.entry_price ≤ 0
        · simp [hc, hlk, he] at h
        · cases htr : computeTrigger cfg ((price / pos.entry_price - 1) * 100)
              (now - pos.opened_at) with
          | none => simp [hc, hlk, he, htr] at h
          | some tr =>
              simp only [hc, if_false, hlk, he, if_true, htr] at h
              exact (Prod.mk.injEq _ _ _ _ ▸ h).2.symm

/-- A concrete open position used to evaluate the claims on explicit inputs. -/
def posEx : RealPosition :=
  { pair_address := "p"
    dex_type := DexType.V2
    token_out := "0xtoken"
    base_symbol := "BASE"
    entry_price := 1
    buy_amount_bnb := 1
    opened_at := 0 }

/-- A concrete trader holding `posEx` under key "p". -/
def traderEx : RealTrader :=
  { positions := [("p", posEx)], closing := [], do_not_rebuy := [] }

/-- A concrete configuration: take-profit at 10%, everything else off. -/
def cfgEx : ConfigStore :=
  { tp_enabled := true
    tp_pct := some 10
    sl_enabled := false
    sl_pct := none
    max_hold_secs := none
    max_hold_pnl := none }

/-- C1 — Double-sell prevention.  `reserve_close k` succeeds iff `k` has a
position and is not already closing, and then marks `k` as closing; a second
consecutive `reserve_close k` returns false; and once `sell_decision` returns
a plan for `k` (reserving `k` in the same step), any subsequent
`sell_decision` yields no plan and any `reserve_close` returns false, until
`abort_close` or `finish_sell` clears the mark. -/
theorem reserve_close_prevents_double_sell (t : RealTrader) (k : String) :
    ((t.reserve_close k).1 = true ↔
        ((assocLookup t.positions k).isSome ∧ k ∉ t.closing)) ∧
    ((t.reserve_close k).1 = true → k ∈ (t.reserve_close k).2.closing) ∧
    ((t.reserve_close k).1 = true →
        ((t.reserve_close k).2.reserve_close k).1 = false) ∧
    (∀ (price : ℚ) (cfg : ConfigStore) (now : ℕ) (plan : SellPlan)
        (t' : RealTrader),
      t.sell_decision k price cfg now = (some plan, t') →
      (∀ (price' : ℚ) (cfg' : ConfigStore) (now' : ℕ),
          t'.sell_decision k price' cfg' now' = (none, t')) ∧
      (t'.reserve_close k).1 = false) := by
  have hmem : ∀ t' : RealTrader,
      t' = { t with closing := setInsert t.closing k } → k ∈ t'.closing := by
    intro t' ht'
    rw [ht']
    exact (mem_setInsert t.closing k k).mpr (Or.inr rfl)
  refine ⟨reserve_close_true_iff t k, ?_, ?_, ?_⟩
  · intro h
    rw [reserve_close_true_closing t k h]
    exact (mem_setInsert t.closing k k).mpr (Or.inr rfl)
  · intro h
    rw [reserve_close_true_closing t k h]
    exact reserve_close_false_of_closing _ k
      ((mem_setInsert t.closing k k).mpr (Or.inr rfl))
  · intro price cfg now plan t' h
    have hk : k ∈ t'.closing :=
      hmem t' (sell_decision_snd_of_some t k price cfg now plan t' h)
    exact ⟨fun price' cfg' now' => sell_decision_of_closing t' k price' cfg' now' hk,
      reserve_close_false_of_closing t' k hk⟩

/-- The state after `sell_decision` fires the take-profit plan on `traderEx`. -/
def traderEx' : RealTrader :=
  (traderEx.sell_decision "p" (6 / 5) cfgEx 0).2

/-- The plan `sell_decision` produces on `traderEx` at price 6/5. -/
def planEx : SellPlan :=
  { pair_key := "p"
    dex_type := DexType.V2
    token_out := "0xtoken"
    base_symbol := "BASE"
    spent_bnb := 1
    pnl_pct := 20
    trigger := SellTrigger.TakeProfit 10
    percent_points := 100 }

/-- Witness for C1 at the concrete trader `traderEx`. -/
theorem reserve_close_prevents_double_sell_witness :
    (traderEx.reserve_close "p").1 = true ∧
    ((traderEx.reserve_close "p").2.reserve_close "p").1 = false ∧
    (traderEx'.sell_decision "p" 2 cfgEx 7 = (none, traderEx') ∧
      (traderEx'.reserve_close "p").1 = false) := by
  have c := reserve_close_prevents_double_sell traderEx "p"
  have h1 : (traderEx.reserve_close "p").1 = true :=
    c.1.mpr ⟨by simp [traderEx, assocLookup, posEx], by simp [traderEx]⟩
  have hsd : traderEx.sell_decision "p" (6 / 5) cfgEx 0 = (some planEx, traderEx') := by
    simp only [traderEx', RealTrader.sell_decision, traderEx, cfgEx, posEx, planEx,
      computeTrigger, assocLookup, setInsert, List.find?, List.mem_nil_iff]
    norm_num
  have h4 := c.2.2.2 (6 / 5) cfgEx 0 planEx traderEx' hsd
  exact ⟨h1, c.2.2.1 h1, h4.1 2 cfgEx 7, h4.2⟩

theorem computeTrigger_spec (cfg : ConfigStore) (pnl : ℚ) (elapsed : ℕ)
    (tp sl : ℚ) (mh : ℕ) (gate : Bool)
    (htp : cfg.tp_pct = some tp) (hsl : cfg.sl_pct = some sl)
    (hmh : cfg.max_hold_secs = some mh) (hg : cfg.max_hold_pnl = some gate) :
    computeTrigger cfg pnl elapsed =
      (if cfg.tp_enabled ∧ pnl ≥ tp then some (SellTrigger.TakeProfit tp)
       else if cfg.sl_enabled ∧ pnl ≤ -sl then some (SellTrigger.StopLoss sl)
       else if 0 < mh ∧ mh ≤ elapsed ∧ (gate = true → pnl ≤ 50) then
         some (SellTrigger.MaxHold mh)
       else none) := by
  cases he : cfg.tp_enabled <;> cases hs : cfg.sl_enabled <;> cases hgt : gate <;>
    simp only [computeTrigger, htp, hsl, hmh, hg, he, hs, Option.getD_some,
      if_true, if_false, Bool.false_eq_true, Bool.true_eq_false, false_and,
      true_and, if_neg, ge_iff_le, gt_iff_lt, false_implies, implies_true,
      and_true, false_or, true_or, or_false] <;>
    split_ifs <;> simp_all

/-- C2 — Trigger evaluation order and thresholds.  For a position with entry
price E > 0 at current price C the evaluator uses
pnl_pct = (C/E − 1) × 100 and fires, in strict order, take-profit iff enabled
and pnl_pct ≥ tp, else stop-loss iff enabled and pnl_pct ≤ −sl, else max-hold
iff a nonzero hold duration is configured, the elapsed holding time has
reached it, and (when the max_hold_pnl gate is enabled) pnl_pct ≤ 50; at most
one trigger fires (the result is a single optional plan). -/
theorem sell_decision_trigger_order (t : RealTrader) (k : String) (C : ℚ)
    (cfg : ConfigStore) (now : ℕ) (pos : RealPosition) (tp sl : ℚ) (mh : ℕ)
    (gate : Bool)
    (hc : k ∉ t.closing) (hlk : assocLookup t.positions k = some pos)
    (hE : 0 < pos.entry_price)
    (htp : cfg.tp_pct = some tp) (hsl : cfg.sl_pct = some sl)
    (hmh : cfg.max_hold_secs = some mh) (hg : cfg.max_hold_pnl = some gate) :
    ((t.sell_decision k C cfg now).1.map SellPlan.trigger =
      (if cfg.tp_enabled ∧ (C / pos.entry_price - 1) * 100 ≥ tp then
         some (SellTrigger.TakeProfit tp)
       else if cfg.sl_enabled ∧ (C / pos.entry_price - 1) * 100 ≤ -sl then
         some (SellTrigger.StopLoss sl)
       else if 0 < mh ∧ mh ≤ now - pos.opened_at ∧
           (gate = true → (C / pos.entry_price - 1) * 100 ≤ 50) then
         some (SellTrigger.MaxHold mh)
       else none)) ∧
    (∀ plan : SellPlan, (t.sell_decision k C cfg now).1 = some plan →
      plan.pnl_pct = (C / pos.entry_price - 1) * 100) := by
  have hE' : ¬pos.entry_price ≤ 0 := not_le.mpr hE
  have hct := computeTrigger_spec cfg ((C / pos.entry_price - 1) * 100)
    (now - pos.opened_at) tp sl mh gate htp hsl hmh hg
  constructor
  · simp only [RealTrader.sell_decision, hc, if_false, hlk, hE', if_neg, hct]
    split_ifs <;> simp
  · intro plan hplan
    simp only [RealTrader.sell_decision, hc, if_false, hlk, hE', if_neg] at hplan
    revert hplan
    cases htr : computeTrigger cfg ((C / pos.entry_price - 1) * 100)
        (now - pos.opened_at) with
    | none => simp
    | some tr =>
        intro hplan
        simp only [Option.some.injEq] at hplan
        rw [← hplan]

/-- The config for Scenario E with the max-hold PnL gate enabled. -/
def cfgGateOn : ConfigStore :=
  { tp_enabled := false
    tp_pct := some 10
    sl_enabled := false
    sl_pct := some 5
    max_hold_secs := some 10
    max_hold_pnl := some true }

/-- The config for Scenario E with the max-hold PnL gate disabled. -/
def cfgGateOff : ConfigStore :=
  { cfgGateOn with max_hold_pnl := some false }

/-- Witness for C2 at Scenario E: hold duration exceeded and pnl = 60%; with
the gate enabled max-hold does not fire, with it disabled it fires. -/
theorem sell_decision_trigger_order_witness :
    (traderEx.sell_decision "p" (8 / 5) cfgGateOn 20).1.map SellPlan.trigger
        = none ∧
    (traderEx.sell_decision "p" (8 / 5) cfgGateOff 20).1.map SellPlan.trigger
        = some (SellTrigger.MaxHold 10) := by
  have hlk : assocLookup traderEx.positions "p" = some posEx := by
    simp [traderEx, assocLookup]
  have hc : "p" ∉ traderEx.closing := by simp [traderEx]
  have hE : (0 : ℚ) < posEx.entry_price := by norm_num [posEx]
  have h1 := (sell_decision_trigger_order traderEx "p" (8 / 5) cfgGateOn 20
    posEx 10 5 10 true hc hlk hE rfl rfl rfl rfl).1
  have h2 := (sell_decision_trigger_order traderEx "p" (8 / 5) cfgGateOff 20
    posEx 10 5 10 false hc hlk hE rfl rfl rfl rfl).1
  rw [h1, h2]
  norm_num [cfgGateOn, cfgGateOff, posEx]

theorem waitDropFrom_none (bal_before : ℕ) (poll : ℕ → ℕ)
    (h : ∀ i, bal_before ≤ poll i) :
    ∀ rem i, waitDropFrom bal_before poll i rem = none := by
  intro rem
  induction rem with
  | zero => intro i; rfl
  | succ n ih =>
      intro i
      simp only [waitDropFrom, Nat.not_lt.mpr (h i), if_false, if_neg, ih]

/-- C3 — Atomicity of a confirmed-but-ineffective sell.  If the polled token
balance never decreases within the bounded retries, `execute_sell_plan`
returns an error; settling that error runs `abort_close` (not `finish_sell`),
so the positions map and the do-not-rebuy set are unchanged, the closing mark
for `k` is cleared, and a future tick can retry the close
(`reserve_close` succeeds again). -/
theorem confirmed_but_ineffective_sell_aborts (bal_before retries : ℕ)
    (poll : ℕ → ℕ) (t : RealTrader) (k : String) (pos : RealPosition)
    (hb : 0 < bal_before) (hpoll : ∀ i, bal_before ≤ poll i)
    (hlk : assocLookup t.positions k = some pos) :
    ∃ e, execute_sell_plan_confirm bal_before 100 retries poll = Except.error e ∧
      (settle_sell_result t k (Except.error e)).positions = t.positions ∧
      (settle_sell_result t k (Except.error e)).do_not_rebuy = t.do_not_rebuy ∧
      k ∉ (settle_sell_result t k (Except.error e)).closing ∧
      ((settle_sell_result t k (Except.error e)).reserve_close k).1 = true := by
  refine ⟨"sell tx mined but token balance did not decrease", ?_, rfl, rfl, ?_, ?_⟩
  · have hb' : bal_before ≠ 0 := Nat.pos_iff_ne_zero.mp hb
    have hamt : bal_before * (min 100 100 * 100) / 10000 = bal_before := by
      simp [Nat.mul_div_cancel]
    simp only [execute_sell_plan_confirm, hb', if_false, if_neg, hamt, hb,
      Nat.not_lt.mpr (hpoll 0), wait_for_balance_drop,
      waitDropFrom_none bal_before (fun i => poll (i + 1)) (fun i => hpoll (i + 1))]
  · exact not_mem_setRemove t.closing k
  · have : ¬k ∈ setRemove t.closing k := not_mem_setRemove t.closing k
    simp [settle_sell_result, RealTrader.abort_close, RealTrader.reserve_close,
      this, hlk]

/-- Witness for C3: balance 5 that never drops across 4 retries. -/
theorem confirmed_but_ineffective_sell_aborts_witness :
    ∃ e, execute_sell_plan_confirm 5 100 4 (fun _ => 5) = Except.error e ∧
      (settle_sell_result traderEx "p" (Except.error e)).positions
          = traderEx.positions ∧
      (settle_sell_result traderEx "p" (Except.error e)).do_not_rebuy
          = traderEx.do_not_rebuy ∧
      "p" ∉ (settle_sell_result traderEx "p" (Except.error e)).closing ∧
      ((settle_sell_result traderEx "p" (Except.error e)).reserve_close "p").1
          = true :=
  confirmed_but_ineffective_sell_aborts 5 4 (fun _ => 5) traderEx "p" posEx
    (by decide) (fun i => Nat.le_refl 5) (by simp [traderEx, assocLookup])

/-- C4 — Permanent-block population and the admission gate.  `finish_sell k`
removes `k`'s position and puts `k` into the do-not-rebuy set; three
consecutive buy failures for `k` (via `record_buy_failure`) also put `k`
there; and `has_position_or_blocked k` — the sole admission gate — is true
exactly when `k` has a live position, a closing mark, or a do-not-rebuy mark,
so a fourth buy attempt for a blocked pair is rejected at admission. -/
theorem permanent_block_and_admission (t : RealTrader) (k : String)
    (pos : RealPosition) (fails : List (String × ℕ)) :
    (assocLookup t.positions k = some pos → pos.pair_address = k →
      (assocLookup (t.finish_sell k).positions k = none ∧
       k ∈ (t.finish_sell k).do_not_rebuy)) ∧
    (assocLookup fails k = none →
      (let r1 := record_buy_failure t fails k
       let r2 := record_buy_failure r1.1 r1.2.1 k
       let r3 := record_buy_failure r2.1 r2.2.1 k
       r1.2.2 = 1 ∧ r2.2.2 = 2 ∧ r3.2.2 = 3 ∧ k ∈ r3.1.do_not_rebuy ∧
         r3.1.has_position_or_blocked k = true)) ∧
    (t.has_position_or_blocked k = true ↔
      ((assocLookup t.positions k).isSome ∨ k ∈ t.closing ∨
        k ∈ t.do_not_rebuy)) := by
  refine ⟨?_, ?_, ?_⟩
  · intro hlk hpa
    constructor
    · simp only [RealTrader.finish_sell, hlk]
      exact assocLookup_remove t.positions k
    · simp only [RealTrader.finish_sell, hlk]
      exact (mem_setInsert _ _ _).mpr (Or.inr hpa.symm)
  · intro hf
    have hmem : k ∈ (t.block_rebuy k).do_not_rebuy :=
      (mem_setInsert _ _ _).mpr (Or.inr rfl)
    have hgate : (t.block_rebuy k).has_position_or_blocked k = true := by
      simp only [RealTrader.has_position_or_blocked, Bool.or_eq_true,
        decide_eq_true_eq]
      exact Or.inr hmem
    simp only [record_buy_failure, hf, Option.getD_none, Option.getD_some,
      assocLookup_insert, Nat.zero_add, Nat.reduceAdd, Nat.reduceLeDiff,
      ge_iff_le, if_true, if_false, if_neg, if_pos]
    norm_num
    exact ⟨hmem, hgate⟩
  · simp [RealTrader.has_position_or_blocked, or_assoc]

/-- Witness for C4: closing the `traderEx` position blocks "p"; three failures
on the empty counter map block and gate "p". -/
theorem permanent_block_and_admission_witness :
    (assocLookup (traderEx.finish_sell "p").positions "p" = none ∧
      "p" ∈ (traderEx.finish_sell "p").do_not_rebuy) ∧
    (let r1 := record_buy_failure traderEx [] "p"
     let r2 := record_buy_failure r1.1 r1.2.1 "p"
     let r3 := record_buy_failure r2.1 r2.2.1 "p"
     r1.2.2 = 1 ∧ r2.2.2 = 2 ∧ r3.2.2 = 3 ∧ "p" ∈ r3.1.do_not_rebuy ∧
       r3.1.has_position_or_blocked "p" = true) := by
  have h := permanent_block_and_admission traderEx "p" posEx []
  exact ⟨h.1 (by simp [traderEx, assocLookup]) rfl, h.2.1 rfl⟩

theorem retryFrom_attempts_le (outcome : ℕ → Bool) :
    ∀ (rem i : ℕ), (retryFrom outcome i rem).2.1 ≤ rem := by
  intro rem
  induction rem with
  | zero => intro i; simp [retryFrom]
  | succ n ih =>
      intro i
      by_cases h : outcome i
      · simp [retryFrom, h]
      · simpa [retryFrom, h] using ih (i + 1)

theorem retryFrom_delays_linear (outcome : ℕ → Bool) :
    ∀ (rem i : ℕ),
      (retryFrom outcome i rem).2.2 =
        (List.range (retryFrom outcome i rem).2.2.length).map
          (fun j => 300 * (i + j + 1)) := by
  intro rem
  induction rem with
  | zero => intro i; simp [retryFrom]
  | succ n ih =>
      intro i
      by_cases h : outcome i
      · simp [retryFrom, h]
      · have := ih (i + 1)
        simp only [retryFrom, h, Bool.false_eq_true, if_false, if_neg,
          List.length_cons]
        rw [List.range_succ_eq_map, List.map_cons, List.map_map]
        congr 1
        rw [this]
        simp only [List.length_map, List.length_range]
        congr 1
        funext j
        simp only [Function.comp_apply, Nat.succ_eq_add_one]
        ring

theorem retryFrom_all_fail (outcome : ℕ → Bool) :
    ∀ (rem i : ℕ), (∀ j, j < rem → outcome (i + j) = false) →
      (retryFrom outcome i rem).1 = Except.error "allowance failed" := by
  intro rem
  induction rem with
  | zero => intro i _; rfl
  | succ n ih =>
      intro i h
      have h0 : outcome i = false := by simpa using h 0 n.succ_pos
      have hrest : ∀ j, j < n → outcome (i + 1 + j) = false := by
        intro j hj
        have := h (j + 1) (Nat.succ_lt_succ hj)
        simpa [Nat.add_assoc, Nat.add_comm 1 j] using this
      simp [retryFrom, h0, ih (i + 1) hrest]

/-- C5 — Allowance-worker at-most-once semantics.  The consumer drops any job
whose key is already approved without executing it; a key enters the approved
set only when its job succeeds; `send_allowance_with_retry` makes at most 3
attempts and sleeps `300·(attempt+1)` ms after each failure (linear backoff);
and a job whose 3 attempts all fail leaves the approved set unchanged, so a
future job for the same key will execute. -/
theorem allowance_worker_at_most_once (approved : List AllowanceKey)
    (job : AllowanceJob) (key : AllowanceKey) (outcome : ℕ → Bool) :
    (job.key ∈ approved → workerStep approved job = (approved, false)) ∧
    (key ∈ (workerStep approved job).1 ↔
      (key ∈ approved ∨ (key = job.key ∧ job.succeeds = true))) ∧
    (send_allowance_with_retry outcome 3).2.1 ≤ 3 ∧
    ((send_allowance_with_retry outcome 3).2.2 =
      (List.range (send_allowance_with_retry outcome 3).2.2.length).map
        (fun j => 300 * (j + 1))) ∧
    ((∀ j, j < 3 → outcome j = false) →
      ((make_allowance_job key outcome).succeeds = false ∧
       (workerStep approved (make_allowance_job key outcome)).1 = approved ∧
       (∀ job2 : AllowanceJob, job2.key = key → key ∉ approved →
         (workerStep approved job2).2 = true))) := by
  refine ⟨?_, ?_, retryFrom_attempts_le outcome 3 0, ?_, ?_⟩
  · intro h
    simp [workerStep, h]
  · unfold workerStep
    by_cases hmem : job.key ∈ approved
    · rw [if_pos hmem]
      constructor
      · exact fun h => Or.inl h
      · rintro (h | ⟨rfl, _⟩) <;> [exact h; exact hmem]
    · by_cases hs : job.succeeds = true
      · rw [if_neg hmem, if_pos hs]
        simp only [List.mem_cons]
        constructor
        · rintro (rfl | h)
          · exact Or.inr ⟨rfl, hs⟩
          · exact Or.inl h
        · rintro (h | ⟨rfl, _⟩)
          · exact Or.inr h
          · exact Or.inl rfl
      · rw [if_neg hmem, if_neg hs]
        constructor
        · exact fun h => Or.inl h
        · rintro (h | ⟨rfl, hc⟩)
          · exact h
          · exact absurd hc hs
  · have := retryFrom_delays_linear outcome 3 0
    simpa [send_allowance_with_retry] using this
  · intro hfail
    have herr : (send_allowance_with_retry outcome 3).1
        = Except.error "allowance failed" :=
      retryFrom_all_fail outcome 3 0 (by simpa using hfail)
    have hok : (send_allowance_with_retry outcome 3).1.isOk = false := by
      rw [herr]; rfl
    have hsf : (make_allowance_job key outcome).succeeds = false := by
      simpa [make_allowance_job] using hok
    refine ⟨hsf, ?_, ?_⟩
    · by_cases hmem : key ∈ approved
      · simp [workerStep, make_allowance_job, hmem]
      · simp [workerStep, make_allowance_job, hmem, hok]
    · intro job2 hk2 hmem
      rw [← hk2] at hmem
      by_cases hs2 : job2.succeeds <;> simp [workerStep, hmem, hs2]

/-- A concrete allowance key for the witnesses. -/
def keyEx : AllowanceKey := { token := "0xtok", market := AllowanceMarket.V2 }

/-- Witness for C5: an already-approved key is dropped; with an always-failing
approval the attempt count is ≤ 3, the job fails, the approved set is
untouched and a later job for the key executes. -/
theorem allowance_worker_at_most_once_witness :
    workerStep [keyEx] { key := keyEx, succeeds := true } = ([keyEx], false) ∧
    (send_allowance_with_retry (fun _ => false) 3).2.1 ≤ 3 ∧
    (make_allowance_job keyEx (fun _ => false)).succeeds = false ∧
    (workerStep [] (make_allowance_job keyEx (fun _ => false))).1 = [] ∧
    (workerStep [] { key := keyEx, succeeds := true }).2 = true := by
  have h1 := allowance_worker_at_most_once [keyEx]
    { key := keyEx, succeeds := true } keyEx (fun _ => false)
  have h2 := allowance_worker_at_most_once ([] : List AllowanceKey)
    { key := keyEx, succeeds := true } keyEx (fun _ => false)
  have hfail := h2.2.2.2.2 (fun j _ => rfl)
  exact ⟨h1.1 (List.mem_singleton.mpr rfl), h1.2.2.1, hfail.1, hfail.2.1,
    hfail.2.2 { key := keyEx, succeeds := true } rfl (List.not_mem_nil keyEx)⟩

theorem update_liquidity_fields (p : SimPosition) (liq : Option ℚ) :
    (p.update_liquidity liq).entry_price = p.entry_price ∧
    (p.update_liquidity liq).current_price = p.current_price ∧
    (p.update_liquidity liq).buy_amount_wbnb = p.buy_amount_wbnb ∧
    (p.update_liquidity liq).remaining_amount_wbnb = p.remaining_amount_wbnb ∧
    (p.update_liquidity liq).status = p.status ∧
    (p.update_liquidity liq).frozen = p.frozen ∧
    (p.update_liquidity liq).pnl_pct = p.pnl_pct ∧
    (p.update_liquidity liq).opened_at = p.opened_at ∧
    (p.update_liquidity liq).closed_at = p.closed_at ∧
    (p.update_liquidity liq).tp_pct = p.tp_pct ∧
    (p.update_liquidity liq).sl_pct = p.sl_pct ∧
    (p.update_liquidity liq).pair_address = p.pair_address := by
  unfold SimPosition.update_liquidity
  cases liq with
  | none => simp
  | some l =>
      dsimp only
      split_ifs <;> simp

theorem submit_buy_true (se : SimEngine) (k : String) (dex : DexType)
    (b q : String) (amt : ℚ) (tp sl : Option ℚ)
    (h : (se.submit_buy k dex b q amt tp sl).1 = true) :
    (se.submit_buy k dex b q amt tp sl).2 =
      { se with pending_buys :=
          assocInsert se.pending_buys k ⟨dex, b, q, amt, tp, sl⟩ } := by
  unfold SimEngine.submit_buy at *
  by_cases h1 : (assocLookup se.positions k).isSome
      || (assocLookup se.pending_buys k).isSome
  · simp [h1] at h
  · by_cases h2 : k ∈ se.do_not_rebuy
    · simp [h1, h2] at h
    · by_cases h3 : se.positions.length + se.pending_buys.length ≥ se.max_positions
      · simp [h1, h2, h3] at h
      · simp [h1, h2, h3]

/-- C6 — One-tick execution delay for pending buys.  A successful
`submit_buy` leaves the positions map untouched and records only a
`PendingBuy`; the next `update_or_execute` for that pair removes the pending
entry and opens a position whose entry price is that next tick's price (the
submission itself carries no price at all). -/
theorem pending_buy_one_tick_delay (se : SimEngine) (k : String)
    (dex : DexType) (b q : String) (amt : ℚ) (tp sl : Option ℚ)
    (h : (se.submit_buy k dex b q amt tp sl).1 = true) :
    (se.submit_buy k dex b q amt tp sl).2.positions = se.positions ∧
    assocLookup (se.submit_buy k dex b q amt tp sl).2.pending_buys k =
      some { dex_type := dex, base_token := b, quote_token := q,
             buy_amount := amt, tp_pct := tp, sl_pct := sl } ∧
    (∀ (p : ℚ) (liq : Option ℚ) (ac : Bool) (now : ℕ),
      assocLookup ((se.submit_buy k dex b q amt tp sl).2.update_or_execute
          k p liq ac now).2.pending_buys k = none ∧
      (∃ pos : SimPosition,
        assocLookup ((se.submit_buy k dex b q amt tp sl).2.update_or_execute
            k p liq ac now).2.positions k = some pos ∧
        pos.entry_price = p ∧ pos.buy_amount_wbnb = amt ∧
        pos.status = PositionStatus.Open) ∧
      ((se.submit_buy k dex b q amt tp sl).2.update_or_execute
          k p liq ac now).1.isSome = true) := by
  rw [submit_buy_true se k dex b q amt tp sl h]
  refine ⟨rfl, assocLookup_insert _ _ _, ?_⟩
  intro p liq ac now
  have hpend : assocLookup (assocInsert se.pending_buys k
      { dex_type := dex, base_token := b, quote_token := q,
        buy_amount := amt, tp_pct := tp, sl_pct := sl }) k = some
      { dex_type := dex, base_token := b, quote_token := q,
        buy_amount := amt, tp_pct := tp, sl_pct := sl } :=
    assocLookup_insert _ _ _
  simp only [SimEngine.update_or_execute, hpend]
  refine ⟨assocLookup_remove _ _, ?_, rfl⟩
  refine ⟨(SimPosition.new k dex b q p amt tp sl now).update_liquidity liq,
    ?_, ?_, ?_, ?_⟩
  · exact assocLookup_insert _ _ _
  · exact (update_liquidity_fields _ liq).1
  · exact (update_liquidity_fields _ liq).2.2.1
  · exact (update_liquidity_fields _ liq).2.2.2.2.1

/-- An empty simulation engine allowing up to 3 positions. -/
def engineEx : SimEngine :=
  { positions := []
    closed_positions := []
    max_positions := 3
    pending_buys := []
    do_not_rebuy := []
    max_hold_secs := 0
    max_hold_pnl_enabled := true }

/-- Witness for C6: submit a pending buy, then deliver a tick at price 6/5;
the opened position's entry price is 6/5. -/
theorem pending_buy_one_tick_delay_witness :
    (engineEx.submit_buy "p" DexType.V2 "B" "Q" 1 none none).1 = true ∧
    (assocLookup ((engineEx.submit_buy "p" DexType.V2 "B" "Q" 1 none
        none).2.update_or_execute "p" (6 / 5) none true 1).2.pending_buys "p"
        = none ∧
      (∃ pos : SimPosition,
        assocLookup ((engineEx.submit_buy "p" DexType.V2 "B" "Q" 1 none
            none).2.update_or_execute "p" (6 / 5) none true 1).2.positions "p"
          = some pos ∧
        pos.entry_price = 6 / 5 ∧ pos.buy_amount_wbnb = 1 ∧
        pos.status = PositionStatus.Open)) := by
  have hsub : (engineEx.submit_buy "p" DexType.V2 "B" "Q" 1 none none).1
      = true := rfl
  have h := pending_buy_one_tick_delay engineEx "p" DexType.V2 "B" "Q" 1 none
    none hsub
  exact ⟨hsub, (h.2.2 (6 / 5) none true 1).1, (h.2.2 (6 / 5) none true 1).2.1⟩

/-- C7 — Partial-close round trip.  For an open, non-frozen position with
entry price E > 0, pnl_pct = ((C/E)−1)·100 and remaining size R > 0,
`partial_take` with fraction 0 < f ≤ 1 realizes exactly R·f·((C/E)−1), leaves
the remaining size R·(1−f) (snapped to 0 when its absolute value is below
1e-12), adds the realized amount to the accumulator, and neither removes nor
closes the position. -/
theorem partial_take_round_trip (se : SimEngine) (k : String)
    (pos : SimPosition) (C f : ℚ)
    (hlk : assocLookup se.positions k = some pos)
    (hfz : pos.frozen = false)
    (hst : pos.status = PositionStatus.Open)
    (hE : 0 < pos.entry_price)
    (hpnl : pos.pnl_pct = (C / pos.entry_price - 1) * 100)
    (hR : 0 < pos.remaining_amount_wbnb)
    (hf0 : 0 < f) (hf1 : f ≤ 1) :
    ((se.partial_take k f).1.map Prod.fst) =
        some (pos.remaining_amount_wbnb * f * (C / pos.entry_price - 1)) ∧
    (∃ pos' : SimPosition,
      assocLookup (se.partial_take k f).2.positions k = some pos' ∧
      pos'.remaining_amount_wbnb =
        (if |pos.remaining_amount_wbnb * (1 - f)| < 1 / 10 ^ 12 then 0
         else pos.remaining_amount_wbnb * (1 - f)) ∧
      pos'.realized_pnl_wbnb = pos.realized_pnl_wbnb +
        pos.remaining_amount_wbnb * f * (C / pos.entry_price - 1) ∧
      pos'.status = PositionStatus.Open) := by
  have hE' : pos.entry_price ≠ 0 := ne_of_gt hE
  have hcond : ¬(¬(f > 0 ∧ f ≤ 1) ∨ pos.remaining_amount_wbnb ≤ 0) := by
    push_neg
    exact ⟨⟨hf0, hf1⟩, hR⟩
  have hrealized : pos.remaining_amount_wbnb * f * (pos.pnl_pct / 100) =
      pos.remaining_amount_wbnb * f * (C / pos.entry_price - 1) := by
    rw [hpnl]
    field_simp
    ring
  have hrem : pos.remaining_amount_wbnb - pos.remaining_amount_wbnb * f =
      pos.remaining_amount_wbnb * (1 - f) := by
    ring
  unfold SimEngine.partial_take
  rw [hlk]
  dsimp only
  rw [if_neg (by simp [hfz])]
  unfold SimPosition.partial_sell_fraction
  rw [if_neg hcond]
  dsimp only
  rw [hrem]
  constructor
  · rw [Option.map_some']
    exact congrArg some hrealized
  · refine ⟨_, assocLookup_insert _ _ _, rfl, ?_, hst⟩
    dsimp only
    rw [hrealized]

/-- A concrete open position: entry 1, current price 2, pnl 100%, remaining 1. -/
def posC7 : SimPosition :=
  { pair_address := "p"
    dex_type := DexType.V2
    base_token := "B"
    quote_token := "Q"
    entry_price := 1
    current_price := 2
    buy_amount_wbnb := 1
    remaining_amount_wbnb := 1
    opened_at := 0
    closed_at := none
    status := PositionStatus.Open
    liquidity_usd := none
    out_of_liq := false
    needs_liq_ack := false
    tp_pct := none
    sl_pct := none
    pnl_pct := 100
    pnl_wbnb := 1
    realized_pnl_wbnb := 0
    frozen := false }

/-- An engine holding `posC7` under key "p". -/
def engineC7 : SimEngine :=
  { engineEx with positions := [("p", posC7)] }

/-- Witness for C7: selling half of `posC7` at price 2 realizes 1/2 and leaves
remaining size 1/2 with the position still open. -/
theorem partial_take_round_trip_witness :
    ((engineC7.partial_take "p" (1 / 2)).1.map Prod.fst) =
        some (posC7.remaining_amount_wbnb * (1 / 2) *
          ((2 : ℚ) / posC7.entry_price - 1)) ∧
    (∃ pos' : SimPosition,
      assocLookup (engineC7.partial_take "p" (1 / 2)).2.positions "p"
          = some pos' ∧
      pos'.remaining_amount_wbnb =
        (if |posC7.remaining_amount_wbnb * (1 - 1 / 2)| < 1 / 10 ^ 12 then 0
         else posC7.remaining_amount_wbnb * (1 - 1 / 2)) ∧
      pos'.realized_pnl_wbnb = posC7.realized_pnl_wbnb +
        posC7.remaining_amount_wbnb * (1 / 2) *
          ((2 : ℚ) / posC7.entry_price - 1) ∧
      pos'.status = PositionStatus.Open) :=
  partial_take_round_trip engineC7 "p" posC7 2 (1 / 2)
    (by simp [engineC7, assocLookup]) rfl rfl (by norm_num [posC7])
    (by norm_num [posC7]) (by norm_num [posC7]) (by norm_num) (by norm_num)

theorem update_price_exempt (p : SimPosition) (np : ℚ) (now : ℕ)
    (h : p.frozen = true ∨ p.remaining_amount_wbnb ≤ 0) :
    (p.update_price np now).2 = false ∧
    (p.update_price np now).1.status = p.status ∧
    (p.update_price np now).1.frozen = p.frozen ∧
    (p.update_price np now).1.remaining_amount_wbnb
        = p.remaining_amount_wbnb ∧
    (p.update_price np now).1.opened_at = p.opened_at ∧
    (p.update_price np now).1.closed_at = p.closed_at ∧
    (p.update_price np now).1.pair_address = p.pair_address := by
  unfold SimPosition.update_price
  dsimp only
  rcases h with hf | hr
  · split_ifs <;> simp_all
  · split_ifs <;> first
      | (simp_all; done)
      | linarith

/-- C8 (amended) — In the Simulation Engine a frozen position, and likewise a
position with no remaining open size, is exempt from every automatic trigger:
`update_or_execute` fires no TP/SL close (`update_price` returns false) and no
max-hold close, returns no message, and leaves the position in the map with
its status, frozen flag and remaining size unchanged.  (The Real Trader's
`sell_decision` performs no such checks — `RealPosition` has no frozen flag or
remaining-size field — so the exemption holds only for the simulation paths;
see the counterexample.) -/
theorem frozen_and_empty_exempt_in_sim (se : SimEngine) (k : String)
    (pos : SimPosition) (p : ℚ) (liq : Option ℚ) (ac : Bool) (now : ℕ)
    (hpend : assocLookup se.pending_buys k = none)
    (hlk : assocLookup se.positions k = some pos)
    (hfe : pos.frozen = true ∨ pos.remaining_amount_wbnb ≤ 0) :
    (se.update_or_execute k p liq ac now).1 = none ∧
    (∃ pos' : SimPosition,
      assocLookup (se.update_or_execute k p liq ac now).2.positions k
          = some pos' ∧
      pos'.status = pos.status ∧ pos'.frozen = pos.frozen ∧
      pos'.remaining_amount_wbnb = pos.remaining_amount_wbnb) := by
  have hliq := update_liquidity_fields pos liq
  have hfe1 : (pos.update_liquidity liq).frozen = true ∨
      (pos.update_liquidity liq).remaining_amount_wbnb ≤ 0 := by
    rw [hliq.2.2.2.1, hliq.2.2.2.2.2.1]
    exact hfe
  have hup := update_price_exempt (pos.update_liquidity liq) p now hfe1
  set pos' := ((pos.update_liquidity liq).update_price p now).1 with hpos'
  have hst' : pos'.status = pos.status := by
    rw [hup.2.1, hliq.2.2.2.2.1]
  have hfz' : pos'.frozen = pos.frozen := by
    rw [hup.2.2.1, hliq.2.2.2.2.2.1]
  have hrm' : pos'.remaining_amount_wbnb = pos.remaining_amount_wbnb := by
    rw [hup.2.2.2.1, hliq.2.2.2.1]
  have hdur : pos'.closed_at = pos.closed_at ∧ pos'.opened_at = pos.opened_at := by
    exact ⟨by rw [hup.2.2.2.2.2.1, hliq.2.2.2.2.2.2.2.2.1],
      by rw [hup.2.2.2.2.1, hliq.2.2.2.2.2.2.2.1]⟩
  have hclosed : ((pos.update_liquidity liq).update_price p now).2 = false :=
    hup.1
  have hnotclose : ∀ (q : SimPosition), q.frozen = pos.frozen →
      q.remaining_amount_wbnb = pos.remaining_amount_wbnb →
      ¬((!q.frozen && decide (q.duration_secs now ≥ se.max_hold_secs)
          && decide (q.remaining_amount_wbnb > 0)) = true) := by
    intro q hqf hqr hcontra
    rcases hfe with hf | hr
    · rw [hqf, hf] at hcontra
      simp at hcontra
    · have : decide (q.remaining_amount_wbnb > 0) = true := by
        simp only [Bool.and_eq_true] at hcontra
        exact hcontra.2
      rw [hqr] at this
      exact absurd (of_decide_eq_true this) (not_lt.mpr hr)
  unfold SimEngine.update_or_execute
  rw [hpend]
  dsimp only
  rw [hlk]
  dsimp only
  rw [hclosed]
  simp only [Bool.false_and, Bool.false_eq_true, if_false, if_neg]
  by_cases hmh : (decide (se.max_hold_secs > 0) && ac) = true
  · rw [if_pos hmh]
    rw [assocLookup_insert]
    dsimp only
    have hsc : (if (!pos'.frozen && decide (pos'.duration_secs now ≥ se.max_hold_secs)
        && decide (pos'.remaining_amount_wbnb > 0)) = true then
          (if se.max_hold_pnl_enabled = true then decide (pos'.pnl_pct ≤ 50)
           else true)
        else false) = false := by
      rw [if_neg (hnotclose pos' hfz' hrm')]
    rw [hsc]
    simp only [Bool.false_eq_true, if_false, if_neg]
    exact ⟨trivial, pos', assocLookup_insert _ _ _, hst', hfz', hrm'⟩
  · rw [if_neg hmh]
    exact ⟨rfl, pos', assocLookup_insert _ _ _, hst', hfz', hrm'⟩

/-- The frozen mirror position for the C8 counterexample. -/
def posFrozen : SimPosition :=
  { posC7 with frozen := true }

/-- A simulation mirror holding the frozen position under key "p". -/
def engineC8 : SimEngine :=
  { engineEx with positions := [("p", posFrozen)] }

/-- C8 counterexample: the operator has frozen the pair "p" (its simulation
mirror position has `frozen = true`), yet the Real Trader's `sell_decision`
still returns a take-profit plan for "p" at price 6/5 — the frozen exemption
does not exist in the real trigger evaluation, so the claim that it holds for
both evaluators is false. -/
theorem frozen_exemption_fails_for_real_trader :
    ((assocLookup engineC8.positions "p").map SimPosition.frozen
        = some true) ∧
    (traderEx.sell_decision "p" (6 / 5) cfgEx 0).1 = some planEx := by
  constructor
  · simp [engineC8, posFrozen, posC7, assocLookup]
  · simp only [RealTrader.sell_decision, traderEx, cfgEx, posEx, planEx,
      computeTrigger, assocLookup, setInsert, List.find?, List.mem_nil_iff]
    norm_num

/-- Witness for the amended C8: ticking the frozen mirror position leaves it
open, frozen and in place, with no auto-close message. -/
theorem frozen_and_empty_exempt_in_sim_witness :
    (engineC8.update_or_execute "p" (6 / 5) none true 0).1 = none ∧
    (∃ pos' : SimPosition,
      assocLookup (engineC8.update_or_execute "p" (6 / 5) none true
          0).2.positions "p" = some pos' ∧
      pos'.status = posFrozen.status ∧ pos'.frozen = posFrozen.frozen ∧
      pos'.remaining_amount_wbnb = posFrozen.remaining_amount_wbnb) :=
  frozen_and_empty_exempt_in_sim engineC8 "p" posFrozen (6 / 5) none true 0
    rfl (by simp [engineC8, assocLookup]) (Or.inl rfl)

theorem update_price_tp_fires (p : SimPosition) (np : ℚ) (now : ℕ) (tp : ℚ)
    (hE : 0 < p.entry_price) (hfz : p.frozen = false)
    (hR : 0 < p.remaining_amount_wbnb) (htp : p.tp_pct = some tp)
    (hge : (np / p.entry_price - 1) * 100 ≥ tp) :
    (p.update_price np now).2 = true ∧
    (p.update_price np now).1.pair_address = p.pair_address := by
  unfold SimPosition.update_price
  dsimp only
  rw [if_neg (not_le.mpr hE)]
  rw [if_neg (by simp [hfz]), if_pos hR]
  simp only [htp]
  rw [if_pos (decide_eq_true hge)]
  exact ⟨rfl, rfl⟩

theorem update_or_execute_tp_closes (se : SimEngine) (k : String)
    (pos : SimPosition) (np : ℚ) (now : ℕ) (tp : ℚ)
    (hpend : assocLookup se.pending_buys k = none)
    (hlk : assocLookup se.positions k = some pos)
    (hpa : pos.pair_address = k)
    (hE : 0 < pos.entry_price) (hfz : pos.frozen = false)
    (hR : 0 < pos.remaining_amount_wbnb) (htp : pos.tp_pct = some tp)
    (hge : (np / pos.entry_price - 1) * 100 ≥ tp) :
    assocLookup (se.update_or_execute k np none true now).2.positions k
        = none ∧
    k ∈ (se.update_or_execute k np none true now).2.do_not_rebuy := by
  have hliq := update_liquidity_fields pos none
  have hup := update_price_tp_fires (pos.update_liquidity none) np now tp
    (hliq.1 ▸ hE) (hliq.2.2.2.2.2.1 ▸ hfz) (hliq.2.2.2.1 ▸ hR)
    (hliq.2.2.2.2.2.2.2.2.2.1 ▸ htp) (by rw [hliq.1]; exact hge)
  have hpa' : ((pos.update_liquidity none).update_price np now).1.pair_address
      = k := by
    rw [hup.2, hliq.2.2.2.2.2.2.2.2.2.2.2]
    exact hpa
  unfold SimEngine.update_or_execute
  rw [hpend]
  dsimp only
  rw [hlk]
  dsimp only
  rw [hup.1]
  simp only [Bool.true_and, Bool.and_self, if_true, if_pos]
  have hrm : assocLookup (assocRemove se.positions k) k = none :=
    assocLookup_remove se.positions k
  by_cases hmh : (decide (se.max_hold_secs > 0) && true) = true
  · rw [if_pos hmh, hrm]
    dsimp only
    exact ⟨hrm, hpa' ▸ (mem_setInsert _ _ _).mpr (Or.inr rfl)⟩
  · rw [if_neg hmh]
    dsimp only
    exact ⟨hrm, hpa' ▸ (mem_setInsert _ _ _).mpr (Or.inr rfl)⟩

/-- The mirror position for C9: unacknowledged low-liquidity alert, TP at 10%. -/
def posC9 : SimPosition :=
  { posC7 with needs_liq_ack := true, tp_pct := some 10 }

/-- A simulation engine holding `posC9` under key "p". -/
def engineC9 : SimEngine :=
  { engineEx with positions := [("p", posC9)] }

/-- C9 counterexample: position "p" has an unacknowledged low-liquidity alert
(`needs_liq_ack = true`), yet a price tick through `update_or_execute` with
closes allowed removes it via the take-profit auto-close (and blocks the
pair) — so the claim that no automatic close is permitted while the alert is
unacknowledged is false; only the manual click paths are gated. -/
theorem liq_alert_gate_absent_for_auto_close :
    engineC9.position_needs_liq_ack "p" = true ∧
    assocLookup (engineC9.update_or_execute "p" (6 / 5) none true
        0).2.positions "p" = none ∧
    "p" ∈ (engineC9.update_or_execute "p" (6 / 5) none true 0).2.do_not_rebuy := by
  refine ⟨by simp [SimEngine.position_needs_liq_ack, engineC9, posC9, posC7,
    assocLookup], ?_, ?_⟩
  · exact (update_or_execute_tp_closes engineC9 "p" posC9 (6 / 5) 0 10 rfl
      (by simp [engineC9, assocLookup]) rfl (by norm_num [posC9, posC7]) rfl
      (by norm_num [posC9, posC7]) rfl (by norm_num [posC9, posC7])).1
  · exact (update_or_execute_tp_closes engineC9 "p" posC9 (6 / 5) 0 10 rfl
      (by simp [engineC9, assocLookup]) rfl (by norm_num [posC9, posC7]) rfl
      (by norm_num [posC9, posC7]) rfl (by norm_num [posC9, posC7])).2

/-- C9 (amended) — While a position's low-liquidity alert is unacknowledged,
the manual close paths of the results click handler (the per-position Take
button and the partial-sell buttons) are blocked and leave the engine
unchanged until the operator acknowledges the alert; the automatic close
paths of `update_or_execute` are not gated by the alert (see the
counterexample). -/
theorem liq_ack_blocks_manual_close (se : SimEngine) (k : String) (now : ℕ)
    (f : ℚ) (h : se.position_needs_liq_ack k = true) :
    resultsClickTake se k now = (none, se) ∧
    resultsClickPartial se k f = (none, se) := by
  constructor <;> simp [resultsClickTake, resultsClickPartial, h]

/-- Witness for the amended C9 at the concrete alerted engine. -/
theorem liq_ack_blocks_manual_close_witness :
    resultsClickTake engineC9 "p" 5 = (none, engineC9) ∧
    resultsClickPartial engineC9 "p" (1 / 2) = (none, engineC9) :=
  liq_ack_blocks_manual_close engineC9 "p" 5 (1 / 2)
    (by simp [SimEngine.position_needs_liq_ack, engineC9, posC9, posC7,
      assocLookup])

/-- C10 — Frame property of manual partial sells.  For every
`percent_points` between 1 and 99, `manual_sell` never mutates the real
trader store: whether execution succeeds or fails, the trader (positions,
closing set, do-not-rebuy set) and the sold-pairs set are unchanged and none
of `reserve_close` / `finish_sell` / `abort_close` is invoked; on success
only the simulation mirror performs a partial take. -/
theorem manual_sell_partial_frame (t : RealTrader) (se : SimEngine)
    (sold : List String) (pa : String) (pct : ℕ)
    (execRes : Except String Unit) (now : ℕ)
    (h1 : 1 ≤ pct) (h99 : pct ≤ 99) :
    (manual_sell t se sold pa pct execRes now).trader = t ∧
    (manual_sell t se sold pa pct execRes now).ops = [] ∧
    (manual_sell t se sold pa pct execRes now).sold_pairs = sold ∧
    (∀ e, execRes = Except.error e →
      (manual_sell t se sold pa pct execRes now).sim = se) ∧
    ((assocLookup t.positions (pair_key_str pa)).isSome = true →
      execRes = Except.ok () →
      (manual_sell t se sold pa pct execRes now).sim =
        (se.partial_take (pair_key_str pa) ((pct : ℚ) / 100)).2) := by
  have hpct : min (max pct 1) 100 = pct := by omega
  have hge : ¬(pct ≥ 100) := by omega
  unfold manual_sell
  dsimp only
  rw [hpct]
  by_cases hnone : (assocLookup t.positions (pair_key_str pa)).isNone = true
  · rw [if_pos hnone]
    refine ⟨rfl, rfl, rfl, fun e _ => rfl, ?_⟩
    intro hsome _
    rw [Option.isNone_iff_eq_none] at hnone
    rw [hnone] at hsome
    simp at hsome
  · rw [if_neg hnone, if_neg hge]
    cases execRes with
    | ok u =>
        cases u
        exact ⟨rfl, rfl, rfl, fun e he => by simp at he, fun _ _ => rfl⟩
    | error e =>
        exact ⟨rfl, rfl, rfl, fun e' _ => rfl, fun _ hok => by simp at hok⟩

/-- A trader keyed by the normalized pair key, for the C10 witness. -/
def traderC10 : RealTrader :=
  { positions := [(pair_key_str "p", posEx)], closing := [], do_not_rebuy := [] }

/-- Witness for C10: a 50% manual sell against `traderC10`, mirrored in
`engineC7`, leaves the trader untouched and performs a mirror partial take. -/
theorem manual_sell_partial_frame_witness :
    (manual_sell traderC10 engineC7 [] "p" 50 (Except.ok ()) 3).trader
        = traderC10 ∧
    (manual_sell traderC10 engineC7 [] "p" 50 (Except.ok ()) 3).ops = [] ∧
    (manual_sell traderC10 engineC7 [] "p" 50 (Except.ok ()) 3).sold_pairs
        = [] ∧
    (manual_sell traderC10 engineC7 [] "p" 50 (Except.ok ()) 3).sim =
      (engineC7.partial_take (pair_key_str "p") ((50 : ℚ) / 100)).2 := by
  have h := manual_sell_partial_frame traderC10 engineC7 [] "p" 50
    (Except.ok ()) 3 (by norm_num) (by norm_num)
  refine ⟨h.1, h.2.1, h.2.2.1, h.2.2.2.2 ?_ rfl⟩
  simp [traderC10, assocLookup]

end JimmyBSC
